import Mathlib

/-
Verification development for the real-estate scraping pipeline.

Shallow embedding of the Python sources:
  utils.py      : extract_city_from_location, parse_decimal, parse_int
  scraper.py    : load_cities_from_csv, extract_estate_count, generate_links,
                  extract_estate_data, scrape_real_estate_data
  database.py   : insert_data_into_database (record normalization/filter loop)

Modelling conventions:
  - Python strings are Lean `String`s; character-level work is done on `.data`.
  - A parsed HTML document (BeautifulSoup object) is modelled as a function
    from CSS-selector strings to the text of the selected element
    (`none` when `select_one` finds nothing).
  - Network fetches and file reads are modelled as explicit oracle arguments.
  - `Decimal` values are represented as rationals.
  - The logging side channel is modelled as a returned list of messages for
    the functions that log on discard paths (parse_decimal, parse_int, and
    the database insertion loop); pure-info logging elsewhere is elided.
-/

/-- Python `str.startswith` on character lists: `startsWithChars p l` is true
when `p` is an initial segment of `l`. -/
def startsWithChars : List Char → List Char → Bool
  | [], _ => true
  | _ :: _, [] => false
  | a :: as, b :: bs => a == b && startsWithChars as bs

/-- Python's substring test `pat in hay` on character lists: true when `pat`
occurs contiguously inside `hay` (the empty pattern always matches). -/
def containsChars (pat : List Char) : List Char → Bool
  | [] => startsWithChars pat []
  | c :: t => startsWithChars pat (c :: t) || containsChars pat t

/-- Python `str.strip()`: drop whitespace from both ends of a character list. -/
def pyStrip (l : List Char) : List Char :=
  ((l.dropWhile Char.isWhitespace).reverse.dropWhile Char.isWhitespace).reverse

/-- Python `str.strip()` on strings. -/
def pyStripStr (s : String) : String :=
  String.mk (pyStrip s.data)

/-- Python `value.replace("Ft", "")`: delete every (left-to-right,
non-overlapping) occurrence of the two-character pattern `Ft`. -/
def removeFt : List Char → List Char
  | [] => []
  | [c] => [c]
  | a :: b :: rest =>
    if a = 'F' ∧ b = 't' then removeFt rest else a :: removeFt (b :: rest)

/-- The character class kept by `re.sub(r"[^\d.]", "", ...)` in
`parse_decimal`: decimal digits and the dot. -/
def isDigitOrDot (c : Char) : Bool :=
  c.isDigit || c == '.'

/-- The cleaning stage of `utils.parse_decimal`:
`re.sub(r"[^\d.]", "", value.replace("Ft", "").strip())`. -/
def cleanChars (l : List Char) : List Char :=
  (pyStrip (removeFt l)).filter isDigitOrDot

/-- Numeric value of a list of decimal digit characters (as read by Python's
`int`/`Decimal` on an all-digit string). -/
def natFromDigits (l : List Char) : ℕ :=
  l.foldl (fun acc c => acc * 10 + (c.toNat - 48)) 0

/-- Accumulator loop for reading a digits-and-dot string as a rational:
`num` is the numeric value of the digits seen so far, `post` counts digits
after the dot once a dot has been seen. -/
def ratAux : List Char → ℕ → Option ℕ → ℚ
  | [], num, none => (num : ℚ)
  | [], num, some k => (num : ℚ) / (10 : ℚ) ^ k
  | c :: rest, num, post =>
    if c = '.' then ratAux rest num (some 0)
    else ratAux rest (num * 10 + (c.toNat - 48)) (post.map Nat.succ)

/-- Python `Decimal(...)` restricted to the strings reachable in
`parse_decimal` (non-empty strings over digits and dots): succeeds exactly
when there is at most one dot and at least one digit, in which case the value
is the usual decimal reading; otherwise it raises `InvalidOperation`,
modelled as `none`. -/
def pythonDecimal (l : List Char) : Option ℚ :=
  if l.count '.' ≤ 1 ∧ l.any Char.isDigit then some (ratAux l 0 none) else none

/-- Model of `utils.parse_decimal`.  Returns the parsed value (or `none`) together
with the list of log messages emitted.  Mirrors the source: clean the input,
return `None` silently when the remainder is empty, otherwise attempt
`Decimal` and log (the cleaned value) on `InvalidOperation`. -/
def parse_decimal (value : String) : Option ℚ × List String :=
  let v := cleanChars value.data
  if v = [] then (none, [])
  else
    match pythonDecimal v with
    | some q => (some q, [])
    | none => (none, ["Invalid decimal value: " ++ String.mk v])

/-- Model of `utils.parse_int`: `re.sub(r"\D", "", value)` then `int` if non-empty.
It never logs (its log component is always empty). -/
def parse_int (value : String) : Option ℕ × List String :=
  let digits := value.data.filter Char.isDigit
  if digits = [] then (none, []) else (some (natFromDigits digits), [])

/-- Model of `utils.extract_city_from_location`: first city in list order that occurs
as a substring of `location`, else the sentinel `"Unknown"`. -/
def extract_city_from_location (location : String) (cities : List String) : String :=
  match cities with
  | [] => "Unknown"
  | city :: rest =>
    if containsChars city.data location.data then city
    else extract_city_from_location location rest

/-- A parsed HTML page (`BeautifulSoup` object): maps the CSS-selector string
passed to `select_one` to the text of the selected element, `none` when no
element matches.  (A `bs4` Tag's truthiness is modelled as presence.) -/
abbrev Doc := String → Option String

/-- Model of the row-processing loop of `scraper.load_cities_from_csv`.  Python appends
`row[city_index].strip()` for each non-empty row whose indexed cell is
truthy; an `IndexError` on a too-short row is caught by the surrounding
`except`, which abandons the loop and returns the list collected so far. -/
def processRows (idx : ℕ) : List (List String) → List String
  | [] => []
  | row :: rest =>
    if row = [] then processRows idx rest
    else
      match row.get? idx with
      | none => []
      | some cell =>
        if cell = "" then processRows idx rest
        else pyStripStr cell :: processRows idx rest

/-- Model of `scraper.load_cities_from_csv`, with the file already read and parsed
into CSV rows (file I/O and the csv reader are outside the model; a missing
file yields the empty list, matching the `FileNotFoundError` branch).
The first row is consumed as the header; the city column is the one whose
header cell equals `"city"`, else column 0. -/
def load_cities_from_csv (rows : List (List String)) : List String :=
  match rows with
  | [] => []
  | header :: rest =>
    let city_index := if "city" ∈ header then header.indexOf "city" else 0
    processRows city_index rest

/-- The selector used by `scraper.extract_estate_count`. -/
def countSel : String := "div.col.h5.m-0.fw-bolder"

/-- Python `str.split()[0]`: first maximal run of non-whitespace characters,
`none` when the string is all whitespace (that case raises `IndexError` in
the source, caught by its `except`). -/
def firstToken (l : List Char) : Option (List Char) :=
  let t := (l.dropWhile Char.isWhitespace).takeWhile (fun c => !c.isWhitespace)
  if t = [] then none else some t

/-- Python `int(...)` on a whitespace-free token: an optional sign followed
by at least one digit.  (Python also accepts underscore group separators and
non-ASCII digits; those are outside the modelled input space.) -/
def pyInt : List Char → Option ℤ
  | '-' :: ds => if ds ≠ [] ∧ ds.all Char.isDigit then some (-(natFromDigits ds : ℤ)) else none
  | '+' :: ds => if ds ≠ [] ∧ ds.all Char.isDigit then some (natFromDigits ds : ℤ) else none
  | ds => if ds ≠ [] ∧ ds.all Char.isDigit then some (natFromDigits ds : ℤ) else none

/-- Model of `scraper.extract_estate_count`: numeric prefix (first token) of the text
of the count element; every failure path (missing element, no token,
unparseable token) is caught and yields 0. -/
def extract_estate_count (soup : Doc) : ℤ :=
  match soup countSel with
  | none => 0
  | some t =>
    match firstToken t.data with
    | none => 0
    | some tok =>
      match pyInt tok with
      | none => 0
      | some n => n

/-- The pagination URL for page `x`, as built by the f-string in
`scraper.generate_links`. -/
def pageUrl (x : ℕ) : String :=
  "https://otthonterkep.hu/elado+minden-kategoria/minden-megye/minden-telepules/0/0/0/0?p="
    ++ toString x
    ++ "&sort=ad_feladas_time%7Cdesc"

/-- Model of `scraper.generate_links`: `max_pages = min(500, estate_count // 20 + 1)`
(Python floor division is `Int.fdiv`), then one URL per page in
`range(1, max_pages + 1)` (empty when `max_pages ≤ 0`). -/
def generate_links (estate_count : ℤ) : List String :=
  (List.range' 1 (min 500 (estate_count.fdiv 20 + 1)).toNat).map pageUrl

/-- Slot selector for the location link (`h5 > a`) of slot `estate`. -/
def locSel (estate : ℕ) : String :=
  "div.properties.slotDoubleColumn > div:nth-child(" ++ toString estate ++ ") h5 > a"

/-- Slot selector for the price element (`h4`) of slot `estate`. -/
def priceSel (estate : ℕ) : String :=
  "div.properties.slotDoubleColumn > div:nth-child(" ++ toString estate ++ ") h4"

/-- Slot selector the source binds to `floor`. -/
def floorSel (estate : ℕ) : String :=
  "div.properties.slotDoubleColumn > div:nth-child(" ++ toString estate
    ++ ") div:nth-child(2) > div:nth-child(1) > small > span"

/-- Slot selector for the dwelling size. -/
def placeSel (estate : ℕ) : String :=
  "div.properties.slotDoubleColumn > div:nth-child(" ++ toString estate
    ++ ") div:nth-child(1) > div:nth-child(1) > span"

/-- Slot selector for the land size. -/
def landSel (estate : ℕ) : String :=
  "div.properties.slotDoubleColumn > div:nth-child(" ++ toString estate
    ++ ") div:nth-child(1) > div:nth-child(2) > span"

/-- Slot selector the source binds to `room_num` — the same selector string
as `floorSel`. -/
def roomSel (estate : ℕ) : String :=
  "div.properties.slotDoubleColumn > div:nth-child(" ++ toString estate
    ++ ") div:nth-child(2) > div:nth-child(1) > small > span"

/-- One scraped listing record (the dictionary built in
`scraper.extract_estate_data`; the spec's RawListingRecord). -/
structure EstateRecord where
  property_location : String
  price : String
  type : String
  place_size : String
  land_size : String
  rooms : String
  floor : String
deriving DecidableEq

/-- One iteration of the slot loop in `scraper.extract_estate_data`:
the record appended for slot `estate`, or `none` when the guard
`if property_location and price and room_num` fails. -/
def extractSlot (soup : Doc) (cities : List String) (estate : ℕ) : Option EstateRecord :=
  let temp_location := soup (locSel estate)
  let property_location := extract_city_from_location (temp_location.getD "") cities
  let price := soup (priceSel estate)
  let floor := soup (floorSel estate)
  let place_size := soup (placeSel estate)
  let land_size := soup (landSel estate)
  let room_num := soup (roomSel estate)
  if property_location ≠ "" ∧ price.isSome = true ∧ room_num.isSome = true then
    some
      { property_location := pyStripStr property_location
        price := pyStripStr (price.getD "")
        type := if pyStripStr (room_num.getD "") = "0" then "House" else "Apartment"
        place_size := match place_size with | some t => pyStripStr t | none => "N/A"
        land_size := match land_size with | some t => pyStripStr t | none => "N/A"
        rooms := match room_num with | some t => pyStripStr t | none => "N/A"
        floor := match floor with | some t => pyStripStr t | none => "N/A" }
  else none

/-- Model of `scraper.extract_estate_data`: the slot loop `for estate in range(1, 22)`
with conditional append. -/
def extract_estate_data (soup : Doc) (cities : List String) : List EstateRecord :=
  (List.range' 1 21).filterMap (extractSlot soup cities)

/-- The landing-page URL hard-coded in `scraper.scrape_real_estate_data`. -/
def base_url : String :=
  "https://otthonterkep.hu/elado+minden-kategoria/minden-megye/minden-telepules/0/0/0/0?p=1&sort=ad_feladas_time%7Cdesc"

/-- Model of `scraper.scrape_real_estate_data`.  The network is the `fetch` oracle
(`fetch_page_content`: `none` models a failed request, already logged);
the city list (loaded from the CSV file in the source) is a parameter.
Landing-page failure and a zero estate count return the empty list; each
per-page fetch failure skips that page only. -/
def scrape_real_estate_data (fetch : String → Option Doc) (cities : List String) :
    List EstateRecord :=
  match fetch base_url with
  | none => []
  | some soup =>
    let estate_count := extract_estate_count soup
    if estate_count = 0 then []
    else
      (generate_links estate_count).foldl
        (fun all_data link =>
          match fetch link with
          | some page_soup => all_data ++ extract_estate_data page_soup cities
          | none => all_data)
        []

/-- The normalized record built by the insertion loop in
`database.insert_data_into_database` (the spec's NormalizedListingRecord). -/
structure NormalizedRecord where
  property_location : String
  price : ℚ
  type : String
  place_size : ℚ
  land_size : Option ℚ
  rooms : Option ℕ
  floor : Option String
deriving DecidableEq

/-- One iteration of the insertion loop in
`database.insert_data_into_database`: normalize the fields of one record and
either build the row handed to the INSERT, or skip it with a warning when a
required field is `None`.  (`property_location` and `type` come straight off
the scraped record, which always carries them as strings, so only the two
`parse_decimal` results can be `None`; the warning's record repr is elided
from the message.) -/
def normalizeRecord (record : EstateRecord) : Option NormalizedRecord × List String :=
  let price := parse_decimal record.price
  let place_size := parse_decimal record.place_size
  let land_size := parse_decimal record.land_size
  let rooms := parse_int record.rooms
  let floor := if record.floor = "N/A" then none else some record.floor
  let logs := price.2 ++ place_size.2 ++ land_size.2 ++ rooms.2
  match price.1, place_size.1 with
  | some p, some ps =>
    (some
      { property_location := record.property_location
        price := p
        type := record.type
        place_size := ps
        land_size := land_size.1
        rooms := rooms.1
        floor := floor }, logs)
  | _, _ => (none, logs ++ ["Skipping record due to missing required fields"])

/-- Model of `database.insert_data_into_database`, the record loop: the rows actually
handed to storage, together with the emitted log messages.  (Table DDL,
TRUNCATE and the SQL driver are outside the model.) -/
def insert_data_into_database (data : List EstateRecord) : List NormalizedRecord × List String :=
  (data.filterMap (fun r => (normalizeRecord r).1),
   (data.map (fun r => (normalizeRecord r).2)).flatten)

/-- Concrete page: slot 1 carries a price and a room count but no location
element; every other selector is empty. -/
def docMissingLocation : Doc := fun sel =>
  if sel = priceSel 1 then some "1 Ft"
  else if sel = roomSel 1 then some "2"
  else none

/-- Concrete page: slot 1 is complete, with room-count text `"0"`. -/
def docHouseSlot : Doc := fun sel =>
  if sel = locSel 1 then some "Budapest I."
  else if sel = priceSel 1 then some "25 000 000 Ft"
  else if sel = roomSel 1 then some "0"
  else none

/-- Concrete page: slot 1 is complete, with room-count text literally
`"N/A"`. -/
def docNASlot : Doc := fun sel =>
  if sel = locSel 1 then some "Budapest I."
  else if sel = priceSel 1 then some "25 000 000 Ft"
  else if sel = roomSel 1 then some "N/A"
  else none

/-- Concrete page: reports an estate count of 20 and contains no listing
slots at all. -/
def docCountOnly : Doc := fun sel =>
  if sel = countSel then some "20 hirdetes" else none

/-- Network oracle for which every URL successfully returns
`docCountOnly`. -/
def fetchCountOnly : String → Option Doc := fun _ => some docCountOnly

/-- Concrete scraped record whose price text is `"0 Ft"`. -/
def zeroPriceRecord : EstateRecord :=
  { property_location := "Budapest"
    price := "0 Ft"
    type := "Apartment"
    place_size := "50"
    land_size := "N/A"
    rooms := "2"
    floor := "2" }

/-- Filtering commutes over `dropWhile` when the dropped class is disjoint
from the kept class. -/
lemma filter_dropWhile_of_imp {α : Type} (p q : α → Bool)
    (h : ∀ c, q c = true → p c = false) :
    ∀ l : List α, (l.dropWhile q).filter p = l.filter p := by
  intro l
  induction l with
  | nil => rfl
  | cons c t ih =>
    by_cases hq : q c = true
    · simp [List.dropWhile_cons, hq, List.filter_cons, h c hq, ih]
    · simp [List.dropWhile_cons, hq]

/-- Filtering commutes over `pyStrip` when whitespace is outside the kept
class. -/
lemma filter_pyStrip (p : Char → Bool) (h : ∀ c, c.isWhitespace = true → p c = false)
    (l : List Char) : (pyStrip l).filter p = l.filter p := by
  unfold pyStrip
  rw [List.filter_reverse, filter_dropWhile_of_imp p Char.isWhitespace h,
    List.filter_reverse, filter_dropWhile_of_imp p Char.isWhitespace h,
    List.reverse_reverse]

/-- The map `removeFt` only deletes characters `F` and `t`, so filtering by a class
containing neither is unaffected by it. -/
lemma filter_removeFt (p : Char → Bool) (hF : p 'F' = false) (ht : p 't' = false) :
    ∀ l : List Char, (removeFt l).filter p = l.filter p := by
  intro l
  induction l using removeFt.induct with
  | case1 => rfl
  | case2 c => rfl
  | case3 a b rest h ih =>
    obtain ⟨ha, hb⟩ := h
    subst ha; subst hb
    simp [removeFt, List.filter_cons, hF, ht, ih]
  | case4 a b rest h ih =>
    simp only [removeFt, if_neg h, List.filter_cons]
    by_cases hp : p a = true <;> simp [hp, ih, List.filter_cons]

/-- ASCII whitespace is neither a digit nor a dot. -/
lemma whitespace_not_digitOrDot (c : Char) (h : c.isWhitespace = true) :
    isDigitOrDot c = false := by
  have h' : c = ' ' ∨ c = '\t' ∨ c = '\r' ∨ c = '\n' := by
    simpa [Char.isWhitespace, or_assoc] using h
  rcases h' with h | h | h | h <;> subst h <;> decide

/-- The cleaning stage of `parse_decimal` is exactly a filter keeping digits
and dots: stripping `"Ft"` and outer whitespace removes only characters the
filter would drop anyway. -/
lemma cleanChars_eq_filter (l : List Char) :
    cleanChars l = l.filter isDigitOrDot := by
  unfold cleanChars
  rw [filter_pyStrip isDigitOrDot whitespace_not_digitOrDot,
    filter_removeFt isDigitOrDot (by decide) (by decide)]

/-- The decimal-reading accumulator never produces a negative value. -/
lemma ratAux_nonneg : ∀ (l : List Char) (num : ℕ) (post : Option ℕ),
    0 ≤ ratAux l num post := by
  intro l
  induction l with
  | nil =>
    intro num post
    cases post with
    | none => simp [ratAux]
    | some k => simp only [ratAux]; positivity
  | cons c t ih =>
    intro num post
    by_cases hc : c = '.' <;> simp only [ratAux, hc, if_true, if_false, reduceIte] <;>
      first
        | exact ih num (some 0)
        | exact ih _ _

/-- On an all-digit list the decimal reader computes the integer value of
the digits. -/
lemma ratAux_digits : ∀ (l : List Char) (num : ℕ), (∀ c ∈ l, c.isDigit = true) →
    ratAux l num none =
      ((l.foldl (fun acc c => acc * 10 + (c.toNat - 48)) num : ℕ) : ℚ) := by
  intro l
  induction l with
  | nil => intro num _; simp [ratAux]
  | cons c t ih =>
    intro num h
    have hd : c.isDigit = true := h c (List.mem_cons_self c t)
    have hc : ¬(c = '.') := by
      intro e; subst e; exact absurd hd (by decide)
    simp only [ratAux, if_neg hc, Option.map_none', List.foldl_cons]
    exact ih _ (fun d hd' => h d (List.mem_cons_of_mem c hd'))

/-- Values returned by `parse_decimal` are never negative (the cleaned text
has no sign characters). -/
lemma parse_decimal_nonneg (s : String) (q : ℚ) (h : (parse_decimal s).1 = some q) :
    0 ≤ q := by
  unfold parse_decimal at h
  by_cases he : cleanChars s.data = []
  · rw [if_pos he] at h
    simp at h
  · rw [if_neg he] at h
    cases hp : pythonDecimal (cleanChars s.data) with
    | none => rw [hp] at h; simp at h
    | some q' =>
      rw [hp] at h
      have hq : q' = q := by simpa using h
      subst hq
      unfold pythonDecimal at hp
      by_cases hc : (cleanChars s.data).count '.' ≤ 1 ∧
          (cleanChars s.data).any Char.isDigit = true
      · rw [if_pos hc] at hp
        have e := Option.some.inj hp
        rw [← e]
        exact ratAux_nonneg _ 0 none
      · rw [if_neg hc] at hp
        exact absurd hp (by simp)

/-- The city scan is the first match of the substring test, with `"Unknown"`
as the default. -/
lemma extract_city_eq_find (location : String) :
    ∀ cities : List String,
      extract_city_from_location location cities =
        ((cities.find? fun c => containsChars c.data location.data).getD "Unknown") := by
  intro cities
  induction cities with
  | nil => rfl
  | cons c t ih =>
    by_cases h : containsChars c.data location.data = true
    · simp [extract_city_from_location, h, List.find?_cons]
    · simp [extract_city_from_location, h, List.find?_cons, ih]

/-- When every listed city is a non-empty string, the city scan never
returns the empty string (unmatched input yields `"Unknown"`). -/
lemma extract_city_ne_empty (location : String) :
    ∀ cities : List String, (∀ c ∈ cities, c ≠ "") →
      extract_city_from_location location cities ≠ "" := by
  intro cities
  induction cities with
  | nil => intro _; simp [extract_city_from_location]
  | cons c t ih =>
    intro h
    by_cases hb : containsChars c.data location.data = true
    · simpa [extract_city_from_location, hb] using h c (List.mem_cons_self c t)
    · simpa [extract_city_from_location, hb] using
        ih (fun d hd => h d (List.mem_cons_of_mem c hd))

/-- A non-empty pattern is not a substring of the empty string. -/
lemma containsChars_nil (pat : List Char) (h : pat ≠ []) : containsChars pat [] = false := by
  cases pat with
  | nil => exact absurd rfl h
  | cons a t => rfl

/-- Left folds that only append accumulate the flattened mapped list. -/
lemma foldl_append_flatten {α β : Type} (f : α → List β) :
    ∀ (L : List α) (acc : List β),
      L.foldl (fun a x => a ++ f x) acc = acc ++ (L.map f).flatten := by
  intro L
  induction L with
  | nil => intro acc; simp
  | cons x t ih => intro acc; simp [List.foldl_cons, ih]

/-- Equation form of `parse_decimal` with the cleaning stage named. -/
lemma parse_decimal_eq (value : String) :
    parse_decimal value =
      if cleanChars value.data = [] then (none, [])
      else
        match pythonDecimal (cleanChars value.data) with
        | some q => (some q, [])
        | none => (none, ["Invalid decimal value: " ++ String.mk (cleanChars value.data)]) :=
  rfl

/-- C3, counterexample to the claim as stated: on the empty input (likewise
on any non-numeric input) `parse_decimal` returns null but emits no log
entry, whereas the claim requires a log of the rejected raw value. -/
theorem c3_counterexample : parse_decimal "" = (none, []) := by decide

/-- C3 (amended): for a currency string made of digits and stripped
separator characters (spaces, commas) followed by the `Ft` marker,
`parse_decimal` returns the numeric value of its digits with the separators
removed and the marker stripped, emitting no log; an input whose cleaned
remainder is empty (including empty and fully non-numeric input) yields null
silently; a log entry occurs exactly when the cleaned remainder is non-empty
but not a valid decimal, and it records the cleaned remainder rather than
the raw input. -/
theorem c3_amended_normalize_currency (s : String) :
    ((∀ c ∈ s.data, c.isDigit = true ∨ c = ' ' ∨ c = ',') →
      (∃ c ∈ s.data, c.isDigit = true) →
      parse_decimal (s ++ " Ft") =
        (some ((natFromDigits (s.data.filter Char.isDigit) : ℕ) : ℚ), [])) ∧
    (cleanChars s.data = [] → parse_decimal s = (none, [])) ∧
    ((parse_decimal s).2 ≠ [] ↔
      cleanChars s.data ≠ [] ∧ pythonDecimal (cleanChars s.data) = none) := by
  refine ⟨?_, ?_, ?_⟩
  · intro hall hex
    have hdata : (s ++ " Ft").data = s.data ++ [' ', 'F', 't'] := by
      rw [String.data_append]
    have hfe : (s.data ++ [' ', 'F', 't']).filter isDigitOrDot =
        s.data.filter Char.isDigit := by
      rw [List.filter_append]
      have h1 : [' ', 'F', 't'].filter isDigitOrDot = [] := by decide
      rw [h1, List.append_nil]
      apply List.filter_congr
      intro a ha
      rcases hall a ha with h | h | h
      · simp [isDigitOrDot, h]
      · subst h; decide
      · subst h; decide
    have hclean : cleanChars (s ++ " Ft").data = s.data.filter Char.isDigit := by
      rw [cleanChars_eq_filter, hdata, hfe]
    obtain ⟨c, hc, hdig⟩ := hex
    have hmem : c ∈ s.data.filter Char.isDigit := List.mem_filter.mpr ⟨hc, hdig⟩
    have hne : s.data.filter Char.isDigit ≠ [] := by
      intro e
      rw [e] at hmem
      exact absurd hmem (List.not_mem_nil c)
    have hallDigits : ∀ d ∈ s.data.filter Char.isDigit, d.isDigit = true :=
      fun d hd => (List.mem_filter.mp hd).2
    have hcount : (s.data.filter Char.isDigit).count '.' = 0 := by
      rw [List.count_eq_zero]
      intro hdot
      exact absurd (hallDigits '.' hdot) (by decide)
    have hany : (s.data.filter Char.isDigit).any Char.isDigit = true :=
      List.any_eq_true.mpr ⟨c, hmem, hdig⟩
    have hpd : pythonDecimal (s.data.filter Char.isDigit) =
        some ((natFromDigits (s.data.filter Char.isDigit) : ℕ) : ℚ) := by
      unfold pythonDecimal
      rw [if_pos ⟨by rw [hcount]; exact Nat.zero_le 1, hany⟩,
        ratAux_digits _ 0 hallDigits]
      rfl
    rw [parse_decimal_eq, hclean, if_neg hne, hpd]
  · intro he
    rw [parse_decimal_eq, if_pos he]
  · rw [parse_decimal_eq]
    by_cases he : cleanChars s.data = []
    · simp [he]
    · cases hp : pythonDecimal (cleanChars s.data) <;> simp [he, hp]

/-- C3 witness: a concrete well-formed currency string, parsed via the
amended theorem. -/
theorem c3_witness :
    (∀ c ∈ ("12 000" : String).data, c.isDigit = true ∨ c = ' ' ∨ c = ',') ∧
    parse_decimal ("12 000" ++ " Ft") =
      (some ((natFromDigits (("12 000" : String).data.filter Char.isDigit) : ℕ) : ℚ), []) :=
  ⟨by decide, (c3_amended_normalize_currency "12 000").1 (by decide) (by decide)⟩

/-- C4, counterexample to the claim as stated: `parse_int` on a failing
input returns None with no log entry at all, whereas the claim requires
every failing input to come with a corresponding log entry. -/
theorem c4_counterexample : parse_int "abc" = (none, []) := by decide

/-- C4 (amended): both normalizers are total functions over string input
returning a result plus a log; `parse_int` never logs (so its failure path
is silent), and `parse_decimal` logs only on failure, returning null
silently whenever the cleaned remainder is empty. -/
theorem c4_amended_normalizers_total (value : String) :
    (parse_int value).2 = [] ∧
    ((parse_int value).1 = none ↔ value.data.filter Char.isDigit = []) ∧
    ((parse_decimal value).2 ≠ [] → (parse_decimal value).1 = none) ∧
    (cleanChars value.data = [] → parse_decimal value = (none, [])) := by
  refine ⟨?_, ?_, ?_, ?_⟩
  · by_cases h : value.data.filter Char.isDigit = [] <;> simp [parse_int, h]
  · by_cases h : value.data.filter Char.isDigit = [] <;> simp [parse_int, h]
  · intro hlog
    rw [parse_decimal_eq] at hlog ⊢
    by_cases he : cleanChars value.data = []
    · rw [if_pos he] at hlog
      exact absurd rfl hlog
    · rw [if_neg he] at hlog ⊢
      cases hp : pythonDecimal (cleanChars value.data)
      · rfl
      · rw [hp] at hlog
        exact absurd rfl hlog
  · intro he
    rw [parse_decimal_eq, if_pos he]

/-- C4 witness: the amended theorem applied at a concrete non-numeric
input. -/
theorem c4_witness :
    cleanChars ("abc" : String).data = [] ∧ parse_decimal "abc" = (none, []) :=
  ⟨by decide, (c4_amended_normalizers_total "abc").2.2.2 (by decide)⟩

/-- C5: in every record emitted by the listing extractor, a whitespace-
trimmed room-count text of `"0"` yields type `"House"`, and any other
(in particular any other non-empty) room-count yields `"Apartment"`. -/
theorem c5_type_discriminator (soup : Doc) (cities : List String) (r : EstateRecord)
    (hr : r ∈ extract_estate_data soup cities) :
    (r.rooms = "0" → r.type = "House") ∧
    (r.rooms ≠ "0" → r.rooms ≠ "" → r.type = "Apartment") := by
  obtain ⟨e, _, hslot⟩ := List.mem_filterMap.mp hr
  simp only [extractSlot] at hslot
  split at hslot
  · rename_i hg
    obtain ⟨t, ht⟩ := Option.isSome_iff_exists.mp hg.2.2
    rw [ht] at hslot
    have hrec := Option.some.inj hslot
    subst hrec
    dsimp only [Option.getD_some]
    constructor
    · intro h0
      rw [if_pos h0]
    · intro hne _
      rw [if_neg hne]
  · exact absurd hslot (by simp)

/-- C5 witness: the theorem applied to a concrete page whose single slot
has room-count text `"0"`. -/
theorem c5_witness :
    (({ property_location := "Budapest", price := "25 000 000 Ft", type := "House",
        place_size := "N/A", land_size := "N/A", rooms := "0",
        floor := "0" } : EstateRecord).rooms = "0" →
      ({ property_location := "Budapest", price := "25 000 000 Ft", type := "House",
         place_size := "N/A", land_size := "N/A", rooms := "0",
         floor := "0" } : EstateRecord).type = "House") ∧
    (({ property_location := "Budapest", price := "25 000 000 Ft", type := "House",
        place_size := "N/A", land_size := "N/A", rooms := "0",
        floor := "0" } : EstateRecord).rooms ≠ "0" →
      ({ property_location := "Budapest", price := "25 000 000 Ft", type := "House",
         place_size := "N/A", land_size := "N/A", rooms := "0",
         floor := "0" } : EstateRecord).rooms ≠ "" →
      ({ property_location := "Budapest", price := "25 000 000 Ft", type := "House",
         place_size := "N/A", land_size := "N/A", rooms := "0",
         floor := "0" } : EstateRecord).type = "Apartment") :=
  c5_type_discriminator docHouseSlot ["Budapest"]
    { property_location := "Budapest", price := "25 000 000 Ft", type := "House",
      place_size := "N/A", land_size := "N/A", rooms := "0", floor := "0" }
    (by decide)

/-- C6: over any city index whose entries are non-empty (the shape the city
loader produces), the resolver returns the first city in index order that is
a substring of the location, and the sentinel `"Unknown"` when none matches
or when the location text is empty. -/
theorem c6_city_resolution (cities : List String) (location : String)
    (hne : ∀ c ∈ cities, c ≠ "") :
    (∀ city, cities.find? (fun c => containsChars c.data location.data) = some city →
      extract_city_from_location location cities = city) ∧
    (cities.find? (fun c => containsChars c.data location.data) = none →
      extract_city_from_location location cities = "Unknown") ∧
    (location = "" → extract_city_from_location location cities = "Unknown") := by
  refine ⟨?_, ?_, ?_⟩
  · intro city hf
    rw [extract_city_eq_find, hf]
    rfl
  · intro hf
    rw [extract_city_eq_find, hf]
    rfl
  · intro hl
    subst hl
    have hf : cities.find? (fun c => containsChars c.data ("" : String).data) = none := by
      rw [List.find?_eq_none]
      intro c hc
      have hd : c.data ≠ [] := by
        intro e
        apply hne c hc
        cases c with
        | mk d => simp only at e; rw [e]
      simp [containsChars_nil c.data hd]
    rw [extract_city_eq_find, hf]
    rfl

/-- C6 witness: the theorem applied to a concrete index and location, and to
the empty location. -/
theorem c6_witness :
    extract_city_from_location "xx Pest yy" ["Buda", "Pest"] = "Pest" ∧
    extract_city_from_location "" ["Buda", "Pest"] = "Unknown" :=
  ⟨(c6_city_resolution ["Buda", "Pest"] "xx Pest yy" (by decide)).1 "Pest" (by decide),
   (c6_city_resolution ["Buda", "Pest"] "" (by decide)).2.2 rfl⟩

/-- C7: for every non-negative estate count the planner produces exactly
`min 500 (count // 20 + 1)` URLs (at least one), the i-th being the URL for
page `1 + i`, so the pages are numbered consecutively from 1. -/
theorem c7_pagination (estate_count : ℤ) (hc : 0 ≤ estate_count) :
    (generate_links estate_count).length = (min 500 (estate_count.fdiv 20 + 1)).toNat ∧
    1 ≤ (generate_links estate_count).length ∧
    (∀ i, i < (generate_links estate_count).length →
      (generate_links estate_count)[i]? = some (pageUrl (1 + i))) := by
  have hlen : (generate_links estate_count).length =
      (min 500 (estate_count.fdiv 20 + 1)).toNat := by
    unfold generate_links
    rw [List.length_map, List.length_range']
  refine ⟨hlen, ?_, ?_⟩
  · rw [hlen]
    have h1 : (1 : ℤ) ≤ min 500 (estate_count.fdiv 20 + 1) := by
      have h2 : (0 : ℤ) ≤ estate_count.fdiv 20 := Int.fdiv_nonneg hc (by norm_num)
      omega
    omega
  · intro i hi
    rw [hlen] at hi
    unfold generate_links
    rw [List.getElem?_map, List.getElem?_range']
    · simp
    · omega

/-- C7 witness: the count 438 from the claim yields exactly 22 URLs,
numbered 1 through 22. -/
theorem c7_witness :
    (generate_links 438).length = (min 500 ((438 : ℤ).fdiv 20 + 1)).toNat ∧
    (generate_links 438).length = 22 ∧
    (generate_links 438)[0]? = some (pageUrl 1) ∧
    (generate_links 438)[21]? = some (pageUrl 22) := by
  have h := c7_pagination 438 (by decide)
  refine ⟨h.1, ?_, ?_, ?_⟩
  · rw [h.1]; decide
  · exact h.2.2 0 (by rw [h.1]; decide)
  · exact h.2.2 21 (by rw [h.1]; decide)

/-- C1, counterexample to the claim as stated: slot 1 of this page has no
location element, yet a (full, `"Unknown"`-located) record is emitted,
whereas the claim requires zero records from a slot missing its location
element. -/
theorem c1_counterexample :
    extract_estate_data docMissingLocation ["Budapest"] =
      [{ property_location := "Unknown", price := "1 Ft", type := "Apartment",
         place_size := "N/A", land_size := "N/A", rooms := "2", floor := "2" }] ∧
    docMissingLocation (locSel 1) = none :=
  ⟨by decide, by decide⟩

/-- C1 (amended): a slot emits a record iff its price and room-count
elements are present and the resolved location string is non-empty; a
missing location element does not skip the slot (it resolves to the
non-empty sentinel `"Unknown"`), so over any city index with no empty
entries emission depends only on price and room-count presence. -/
theorem c1_amended_slot_guard (soup : Doc) (cities : List String) (estate : ℕ) :
    ((extractSlot soup cities estate).isSome = true ↔
      (extract_city_from_location ((soup (locSel estate)).getD "") cities ≠ "" ∧
        (soup (priceSel estate)).isSome = true ∧ (soup (roomSel estate)).isSome = true)) ∧
    ((∀ c ∈ cities, c ≠ "") →
      ((extractSlot soup cities estate).isSome = true ↔
        ((soup (priceSel estate)).isSome = true ∧
          (soup (roomSel estate)).isSome = true))) := by
  have hguard : (extractSlot soup cities estate).isSome = true ↔
      (extract_city_from_location ((soup (locSel estate)).getD "") cities ≠ "" ∧
        (soup (priceSel estate)).isSome = true ∧ (soup (roomSel estate)).isSome = true) := by
    simp only [extractSlot]
    by_cases hg : extract_city_from_location ((soup (locSel estate)).getD "") cities ≠ "" ∧
        (soup (priceSel estate)).isSome = true ∧ (soup (roomSel estate)).isSome = true
    · rw [if_pos hg]
      exact iff_of_true rfl hg
    · rw [if_neg hg]
      simp only [Option.isSome_none, Bool.false_eq_true, false_iff]
      exact hg
  refine ⟨hguard, fun hcities => ?_⟩
  rw [hguard]
  constructor
  · rintro ⟨_, hp, hr⟩
    exact ⟨hp, hr⟩
  · rintro ⟨hp, hr⟩
    exact ⟨extract_city_ne_empty ((soup (locSel estate)).getD "") cities hcities, hp, hr⟩

/-- C1 witness: the amended guard applied to a concrete page and city
index. -/
theorem c1_witness :
    (∀ c ∈ ["Budapest"], c ≠ "") ∧
    ((extractSlot docMissingLocation ["Budapest"] 1).isSome = true ↔
      ((docMissingLocation (priceSel 1)).isSome = true ∧
        (docMissingLocation (roomSel 1)).isSome = true)) :=
  ⟨by decide, (c1_amended_slot_guard docMissingLocation ["Budapest"] 1).2 (by decide)⟩

/-- C2, counterexample to the claim as stated: a scraped record with price
text `"0 Ft"` is normalized to price 0 and handed to storage, so a record
with `price ≤ 0` does reach storage. -/
theorem c2_counterexample :
    insert_data_into_database [zeroPriceRecord] =
      ([{ property_location := "Budapest", price := 0, type := "Apartment",
          place_size := 50, land_size := none, rooms := some 2,
          floor := some "2" }], []) := by
  decide

/-- C2 (amended): every record handed to storage carries successfully
parsed (hence non-null) price and place_size taken from some input record,
together with that record's location and type, and those values are
non-negative — but not necessarily strictly positive; any input record
whose price or place_size fails to parse is discarded with a logged
warning. -/
theorem c2_amended_required_fields (data : List EstateRecord) :
    (∀ r ∈ (insert_data_into_database data).1,
      0 ≤ r.price ∧ 0 ≤ r.place_size ∧
      ∃ rec ∈ data,
        (parse_decimal rec.price).1 = some r.price ∧
        (parse_decimal rec.place_size).1 = some r.place_size ∧
        r.property_location = rec.property_location ∧ r.type = rec.type) ∧
    (∀ rec ∈ data,
      ((parse_decimal rec.price).1 = none ∨ (parse_decimal rec.place_size).1 = none) →
      "Skipping record due to missing required fields" ∈
        (insert_data_into_database data).2) := by
  constructor
  · intro r hr
    simp only [insert_data_into_database] at hr
    obtain ⟨rec, hrec, hnorm⟩ := List.mem_filterMap.mp hr
    simp only [normalizeRecord] at hnorm
    cases hp : (parse_decimal rec.price).1 with
    | none =>
      rw [hp] at hnorm
      simp at hnorm
    | some p =>
      cases hps : (parse_decimal rec.place_size).1 with
      | none =>
        rw [hp, hps] at hnorm
        simp at hnorm
      | some ps =>
        rw [hp, hps] at hnorm
        have hrec' := Option.some.inj hnorm
        subst hrec'
        exact ⟨parse_decimal_nonneg rec.price p hp,
          parse_decimal_nonneg rec.place_size ps hps,
          rec, hrec, hp, hps, rfl, rfl⟩
  · intro rec hrec hfail
    simp only [insert_data_into_database]
    rw [List.mem_flatten]
    refine ⟨(normalizeRecord rec).2, List.mem_map_of_mem _ hrec, ?_⟩
    simp only [normalizeRecord]
    rcases hfail with hp | hps
    · rw [hp]
      simp
    · cases hp2 : (parse_decimal rec.price).1 with
      | none => simp
      | some p =>
        rw [hps]
        simp

/-- C2 witness: the amended theorem's discard clause applied to a concrete
unparseable record. -/
theorem c2_witness :
    "Skipping record due to missing required fields" ∈
      (insert_data_into_database
        [{ property_location := "x", price := "N/A", type := "Apartment",
           place_size := "N/A", land_size := "N/A", rooms := "N/A",
           floor := "N/A" }]).2 :=
  (c2_amended_required_fields
      [{ property_location := "x", price := "N/A", type := "Apartment",
         place_size := "N/A", land_size := "N/A", rooms := "N/A", floor := "N/A" }]).2
    { property_location := "x", price := "N/A", type := "Apartment",
      place_size := "N/A", land_size := "N/A", rooms := "N/A", floor := "N/A" }
    (by decide) (Or.inl (by decide))

/-- C8, counterexample to the claim as stated: with a network on which every
fetch succeeds and a landing page reporting 20 listings (but no extractable
slots), the run returns an empty result even though neither fatal condition
(landing-fetch failure, zero count) holds — so "empty exactly when fatal"
fails. -/
theorem c8_counterexample :
    scrape_real_estate_data fetchCountOnly [] = [] ∧
    fetchCountOnly base_url = some docCountOnly ∧
    extract_estate_count docCountOnly = 20 :=
  ⟨by decide, rfl, by decide⟩

/-- C8 (amended): a failed landing fetch or a zero extracted count each
yield the empty result (the two fatal conditions); otherwise the result is
exactly the concatenation, in order, of the records extracted from every
successfully fetched page of the plan — a failed page contributes nothing
while all other pages' records are preserved (the result may therefore also
be empty when no page yields records). -/
theorem c8_amended_run (fetch : String → Option Doc) (cities : List String) :
    (fetch base_url = none → scrape_real_estate_data fetch cities = []) ∧
    (∀ soup, fetch base_url = some soup → extract_estate_count soup = 0 →
      scrape_real_estate_data fetch cities = []) ∧
    (∀ soup, fetch base_url = some soup → extract_estate_count soup ≠ 0 →
      scrape_real_estate_data fetch cities =
        ((generate_links (extract_estate_count soup)).map
          (fun link =>
            match fetch link with
            | some page_soup => extract_estate_data page_soup cities
            | none => [])).flatten) := by
  refine ⟨?_, ?_, ?_⟩
  · intro h
    simp [scrape_real_estate_data, h]
  · intro soup hs h0
    simp [scrape_real_estate_data, hs, h0]
  · intro soup hs hne
    simp only [scrape_real_estate_data]
    rw [hs]
    dsimp only
    rw [if_neg hne]
    have hstep : (fun (all_data : List EstateRecord) link =>
        match fetch link with
        | some page_soup => all_data ++ extract_estate_data page_soup cities
        | none => all_data) =
        fun all_data link => all_data ++
          (match fetch link with
           | some page_soup => extract_estate_data page_soup cities
           | none => []) := by
      funext a l
      cases fetch l <;> simp
    rw [hstep, foldl_append_flatten]
    simp

/-- C8 witness: the amended theorem's non-fatal clause applied to the
concrete all-success network. -/
theorem c8_witness :
    scrape_real_estate_data fetchCountOnly [] =
      ((generate_links (extract_estate_count docCountOnly)).map
        (fun link =>
          match fetchCountOnly link with
          | some page_soup => extract_estate_data page_soup []
          | none => [])).flatten :=
  (c8_amended_run fetchCountOnly []).2.2 docCountOnly rfl (by decide)

/-- The row loop of the city loader computes a filterMap over the data rows
whenever every non-empty row actually has the city column (so the
`IndexError` early-exit path is never taken). -/
lemma processRows_eq_filterMap (idx : ℕ) :
    ∀ rows : List (List String), (∀ row ∈ rows, row ≠ [] → idx < row.length) →
      processRows idx rows = rows.filterMap (fun row =>
        match row.get? idx with
        | none => none
        | some cell => if cell = "" then none else some (pyStripStr cell)) := by
  intro rows
  induction rows with
  | nil => intro _; rfl
  | cons row rest ih =>
    intro h
    have htail : ∀ r ∈ rest, r ≠ [] → idx < r.length :=
      fun r hr => h r (List.mem_cons_of_mem row hr)
    by_cases hrow : row = []
    · subst hrow
      simp [processRows, List.filterMap_cons, ih htail]
    · have hlen := h row (List.mem_cons_self row rest) hrow
      have hc : ∃ cell, row[idx]? = some cell := by
        cases hg : row[idx]? with
        | none =>
          rw [List.getElem?_eq_none_iff] at hg
          omega
        | some cell => exact ⟨cell, rfl⟩
      obtain ⟨cell, hcell⟩ := hc
      by_cases hce : cell = "" <;>
        simp [processRows, hrow, hcell, hce, List.filterMap_cons, ih htail]

/-- C9, counterexample to the claim as stated: a data row whose city cell is
all whitespace passes the (pre-trim) non-emptiness check and is returned as
the empty string — so returned entries are not all non-empty. -/
theorem c9_counterexample : load_cities_from_csv [["city"], ["  "]] = [""] := by decide

/-- C9 (amended): when every non-empty data row has the selected column
(header `"city"`, else column 0; the first row is always consumed as the
header), the loader returns, in order, the whitespace-trimmed entries of the
rows whose raw cell is non-empty — a whitespace-only cell is kept and trims
to the empty entry. -/
theorem c9_amended_loader (header : List String) (rest : List (List String))
    (hw : ∀ row ∈ rest, row ≠ [] →
      (if "city" ∈ header then header.indexOf "city" else 0) < row.length) :
    load_cities_from_csv (header :: rest) =
      rest.filterMap (fun row =>
        match row.get? (if "city" ∈ header then header.indexOf "city" else 0) with
        | none => none
        | some cell => if cell = "" then none else some (pyStripStr cell)) := by
  show processRows _ rest = _
  exact processRows_eq_filterMap _ rest hw

/-- C9 witness: the amended theorem applied to a concrete two-row source. -/
theorem c9_witness :
    (∀ row ∈ [["Budapest"], ["  Pecs  "]], row ≠ [] →
      (if "city" ∈ ["city"] then (["city"] : List String).indexOf "city" else 0) <
        row.length) ∧
    load_cities_from_csv (["city"] :: [["Budapest"], ["  Pecs  "]]) =
      [["Budapest"], ["  Pecs  "]].filterMap (fun row =>
        match row.get?
            (if "city" ∈ ["city"] then (["city"] : List String).indexOf "city" else 0) with
        | none => none
        | some cell => if cell = "" then none else some (pyStripStr cell)) :=
  ⟨by decide, c9_amended_loader ["city"] [["Budapest"], ["  Pecs  "]] (by decide)⟩

/-- C10, counterexample to the claim as stated: a slot whose (shared)
room-count element has text `"N/A"` is emitted with `floor = "N/A"`, so
`floor` can be `"N/A"` in an emitted record. -/
theorem c10_counterexample :
    extract_estate_data docNASlot ["Budapest"] =
      [{ property_location := "Budapest", price := "25 000 000 Ft", type := "Apartment",
         place_size := "N/A", land_size := "N/A", rooms := "N/A",
         floor := "N/A" }] := by
  decide

/-- C10 (amended): in every emitted record the floor field is string-equal
to the rooms field — both are read through the identical structural selector
(`floorSel = roomSel`), whose element is necessarily present for an emitted
record, so floor never takes the value `"N/A"` through the absence branch
(it can only be `"N/A"` when the scraped text itself trims to that
string). -/
theorem c10_amended_floor_equals_rooms (soup : Doc) (cities : List String)
    (r : EstateRecord) (hr : r ∈ extract_estate_data soup cities) :
    r.floor = r.rooms ∧
    ∃ e ∈ List.range' 1 21, extractSlot soup cities e = some r ∧
      (soup (floorSel e)).isSome = true ∧ floorSel e = roomSel e := by
  obtain ⟨e, he, hslot⟩ := List.mem_filterMap.mp hr
  have hsel : floorSel e = roomSel e := rfl
  have hfr : r.floor = r.rooms ∧ (soup (floorSel e)).isSome = true := by
    simp only [extractSlot] at hslot
    split at hslot
    · rename_i hg
      obtain ⟨t, ht⟩ := Option.isSome_iff_exists.mp hg.2.2
      have hfloor : soup (floorSel e) = some t := by rw [hsel, ht]
      rw [ht, hfloor] at hslot
      have hrec := Option.some.inj hslot
      subst hrec
      exact ⟨rfl, by rw [hfloor]; rfl⟩
    · exact absurd hslot (by simp)
  exact ⟨hfr.1, e, he, hslot, hfr.2, hsel⟩

/-- C10 witness: the amended theorem applied to the concrete `"N/A"`-room
page. -/
theorem c10_witness :
    ({ property_location := "Budapest", price := "25 000 000 Ft", type := "Apartment",
       place_size := "N/A", land_size := "N/A", rooms := "N/A",
       floor := "N/A" } : EstateRecord).floor =
      ({ property_location := "Budapest", price := "25 000 000 Ft", type := "Apartment",
         place_size := "N/A", land_size := "N/A", rooms := "N/A",
         floor := "N/A" } : EstateRecord).rooms ∧
    ∃ e ∈ List.range' 1 21,
      extractSlot docNASlot ["Budapest"] e =
        some { property_location := "Budapest", price := "25 000 000 Ft",
               type := "Apartment", place_size := "N/A", land_size := "N/A",
               rooms := "N/A", floor := "N/A" } ∧
      (docNASlot (floorSel e)).isSome = true ∧ floorSel e = roomSel e :=
  c10_amended_floor_equals_rooms docNASlot ["Budapest"]
    { property_location := "Budapest", price := "25 000 000 Ft", type := "Apartment",
      place_size := "N/A", land_size := "N/A", rooms := "N/A", floor := "N/A" }
    (by decide)
